import Mathlib

/-!
Verification of the expense-splitting and settlement core of the
Finance-Management repository.

The definitions below are shallow embeddings of the TypeScript service
code in `src/project/src/lib/splitwise.ts`, the form-level validation in
`src/project/src/components/Splitwise/SharedExpenseForm.tsx`, the modal
flow in `src/project/src/components/Splitwise/SettleUpModal.tsx`, and the
SQL schema plus the `calculate_user_balance` function from the migration
file (src/unnamed/part_006).

Numeric values (JavaScript `number`, SQL `numeric`) are embedded as `ℚ`.
JavaScript division by zero yields Infinity/NaN while `ℚ` division by
zero yields 0; no theorem below depends on the value of a division by
zero except where explicitly noted.  JavaScript truthiness defaults
(`x || d`) are modelled exactly: `0`, `undefined` are falsy.
-/

/-- Embedding of the `ExpenseParticipant` row shape
(`src/project/src/lib/splitwise.ts`, lines 29-39; table
`expense_participants` in the migration).  Optional fields keep
`Option`; `amount_owed` and `amount_paid` are plain numbers with the
JavaScript `undefined` of an absent `amount_owed` represented as `0`
(the code only ever reads it through `p.amount_owed || 0`, for which
the two representations agree). -/
structure Participant where
  id : String
  shared_expense_id : String
  user_email : String
  user_name : String
  amount_owed : ℚ
  amount_paid : ℚ
  percentage : Option ℚ
  shares : Option ℚ
  is_settled : Bool
deriving DecidableEq, Repr

/-- JavaScript `p.percentage || 0`: `undefined` and `0` are falsy and give `0`. -/
def pctOr0 (v : Option ℚ) : ℚ :=
  match v with
  | none => 0
  | some x => if x = 0 then 0 else x

/-- JavaScript `p.shares || 1`: `undefined` and `0` are falsy and give `1`. -/
def sharesOr1 (v : Option ℚ) : ℚ :=
  match v with
  | none => 1
  | some x => if x = 0 then 1 else x

/-- JavaScript `p.amount_owed || 0` on a plain number field. -/
def owedOr0 (x : ℚ) : ℚ :=
  if x = 0 then 0 else x

/-- Embedding of `SplitwiseService.calculateParticipantAmounts`
(`src/project/src/lib/splitwise.ts`, lines 285-320).  The TypeScript
`switch` on the split-method string is an if-chain here; each case maps
over the participants replacing only `amount_owed` via object spread,
and the `default` branch returns the input list unchanged.  The source
function contains no `throw` and no code path that raises: it is total. -/
def calculateParticipantAmounts (participants : List Participant)
    (totalAmount : ℚ) (splitMethod : String) : List Participant :=
  if splitMethod = "equal" then
    let equalAmount := totalAmount / (participants.length : ℚ)
    participants.map (fun p => { p with amount_owed := equalAmount })
  else if splitMethod = "percentage" then
    participants.map (fun p =>
      { p with amount_owed := totalAmount * pctOr0 p.percentage / 100 })
  else if splitMethod = "shares" then
    let totalShares := participants.foldl (fun sum p => sum + sharesOr1 p.shares) 0
    participants.map (fun p =>
      { p with amount_owed := totalAmount * sharesOr1 p.shares / totalShares })
  else if splitMethod = "custom" then
    participants.map (fun p => { p with amount_owed := owedOr0 p.amount_owed })
  else
    participants

/-- Sum of the owed amounts of a participant list. -/
def sumOwed (ps : List Participant) : ℚ :=
  (ps.map (fun p => p.amount_owed)).sum

/-- Total effective share count, as computed in the `shares` case of
`calculateParticipantAmounts` (reduce with initial accumulator 0). -/
def totalSharesOf (ps : List Participant) : ℚ :=
  ps.foldl (fun sum p => sum + sharesOr1 p.shares) 0

/-- Sum of the effective percentages of a participant list. -/
def sumPct (ps : List Participant) : ℚ :=
  (ps.map (fun p => pctOr0 p.percentage)).sum

/-- Embedding of `validateSplit`
(`src/project/src/components/Splitwise/SharedExpenseForm.tsx`, lines
219-244), expressed over the participant list that the form then hands
to the service: `handleFormSubmit` (lines 254-279) stores each
percentage as `percentages[email] || 0` into the `percentage` field and
each custom amount as `customAmounts[email] || 0` into `amount_owed`,
so the sums the validator checks coincide with `sumPct` and the sum of
`owedOr0` over the constructed list.  The validator rejects fewer than
two participants, rejects `percentage` when the percentages differ from
100 by more than 0.01, rejects `custom` when the custom amounts differ
from the total by more than 0.01, and accepts everything else. -/
def validateSplit (splitMethod : String) (totalAmount : ℚ)
    (ps : List Participant) : Bool :=
  if ps.length < 2 then
    false
  else if splitMethod = "percentage" then
    decide (|sumPct ps - 100| ≤ 1 / 100)
  else if splitMethod = "custom" then
    decide (|(ps.map (fun p => owedOr0 p.amount_owed)).sum - totalAmount| ≤ 1 / 100)
  else
    true

/-- Row of the `shared_expenses` table (migration, lines 95-110).  The
SQL stores `created_by` as the auth user id and resolves it to an email
through `auth.users`; the embedding identifies users by their email
string directly, so `created_by` holds the creator email. -/
structure SharedExpenseRow where
  id : String
  created_by : String
  total_amount : ℚ
deriving DecidableEq, Repr

/-- Row of `auth.users` as used by `calculate_user_balance`: an email
and the display name from `raw_user_meta_data`. -/
structure UserRow where
  email : String
  name : String
deriving DecidableEq, Repr

/-- The tables read by the balance computation. -/
structure DB where
  users : List UserRow
  expenses : List SharedExpenseRow
  participants : List Participant
deriving Repr

/-- Output row shape of `calculate_user_balance` (migration, lines
335-339); `friend_name` is nullable in SQL, hence `Option`. -/
structure BalanceRow where
  friend_email : String
  friend_name : Option String
  balance : ℚ
deriving DecidableEq, Repr

/-- Helper of `firstDedup`: drop elements already seen. -/
def firstDedupAux {α : Type} [DecidableEq α] (seen : List α) : List α → List α
  | [] => []
  | x :: xs => if x ∈ seen then firstDedupAux seen xs else x :: firstDedupAux (x :: seen) xs

/-- Distinct elements of a list, first occurrence kept, mirroring the
SQL `GROUP BY` key sets (whose order is unspecified; a fixed order
keeps the embedding deterministic). -/
def firstDedup {α : Type} [DecidableEq α] (l : List α) : List α :=
  firstDedupAux [] l

/-- Name lookup in `auth.users`, as in the SQL subselect on
`raw_user_meta_data`. -/
def lookupName (db : DB) (email : String) : Option String :=
  (db.users.find? (fun u => decide (u.email = email))).map (fun u => u.name)

/-- The join condition of the `user_owes` CTE: the participant row
belongs to an expense created by the given user. -/
def expenseCreatedBy (db : DB) (u : String) (p : Participant) : Bool :=
  db.expenses.any (fun e => decide (e.id = p.shared_expense_id) && decide (e.created_by = u))

/-- Source rows of the `user_owes` CTE of `calculate_user_balance`
(migration, lines 342-353): participants of expenses created by the
current user, other than the user, not settled. -/
def userOwesSource (db : DB) (u : String) : List Participant :=
  db.participants.filter (fun p =>
    expenseCreatedBy db u p && decide (p.user_email ≠ u) && !p.is_settled)

/-- The `user_owes` CTE: group its source rows by
`(user_email, user_name)` and emit the negated sum of
`amount_owed - amount_paid` per group. -/
def userOwesRows (db : DB) (u : String) : List BalanceRow :=
  let src := userOwesSource db u
  (firstDedup (src.map (fun p => (p.user_email, p.user_name)))).map (fun k =>
    { friend_email := k.1
      friend_name := some k.2
      balance := -(((src.filter (fun p =>
          decide (p.user_email = k.1) && decide (p.user_name = k.2))).map
        (fun p => p.amount_owed - p.amount_paid)).sum) })

/-- Creator of the expense a participant row belongs to (the inner join
with `shared_expenses` in the `user_is_owed` CTE). -/
def creatorOf (db : DB) (p : Participant) : Option String :=
  (db.expenses.find? (fun e => decide (e.id = p.shared_expense_id))).map (fun e => e.created_by)

/-- Source rows of the `user_is_owed` CTE (migration, lines 354-364):
unsettled participant rows of the current user, paired with the creator
of the owning expense. -/
def userIsOwedSource (db : DB) (u : String) : List (String × Participant) :=
  (db.participants.filter (fun p => decide (p.user_email = u) && !p.is_settled)).filterMap
    (fun p => (creatorOf db p).map (fun c => (c, p)))

/-- The `user_is_owed` CTE: group by creator and emit the (positive)
sum of `amount_owed - amount_paid` per creator. -/
def userIsOwedRows (db : DB) (u : String) : List BalanceRow :=
  let src := userIsOwedSource db u
  (firstDedup (src.map (fun cp => cp.1))).map (fun c =>
    { friend_email := c
      friend_name := lookupName db c
      balance := ((src.filter (fun cp => decide (cp.1 = c))).map
        (fun cp => cp.2.amount_owed - cp.2.amount_paid)).sum })

/-- Embedding of the SQL function `calculate_user_balance`
(src/unnamed/part_006, lines 334-373): FULL OUTER JOIN of the two CTE
outputs on `friend_email`, balance the sum of the coalesced amounts and
name the coalesced name, keeping only rows with nonzero balance. -/
def calculate_user_balance (db : DB) (u : String) : List BalanceRow :=
  let uo := userOwesRows db u
  let uio := userIsOwedRows db u
  let joined :=
    uo.map (fun r =>
      match uio.find? (fun s => decide (s.friend_email = r.friend_email)) with
      | some s => { r with balance := r.balance + s.balance }
      | none => r) ++
    uio.filter (fun s => uo.all (fun r => decide (r.friend_email ≠ s.friend_email)))
  joined.filter (fun r => decide (r.balance ≠ 0))

/-- Embedding of `SplitwiseService.settleExpense`
(`src/project/src/lib/splitwise.ts`, lines 371-381): update the row
whose id matches, setting `amount_paid` to the given amount and
`is_settled` to true, unconditionally. -/
def settleExpense (tbl : List Participant) (participantId : String) (amount : ℚ) :
    List Participant :=
  tbl.map (fun p =>
    if p.id = participantId then { p with amount_paid := amount, is_settled := true } else p)

/-- Row of the `settlements` table (migration, lines 128-138). -/
structure SettlementRow where
  id : String
  from_user_email : String
  to_user_email : String
  amount : ℚ
  shared_expense_id : Option String
  description : Option String
  status : String
  settled_at : Option String
deriving DecidableEq, Repr

/-- Embedding of `SplitwiseService.createSettlement`
(`src/project/src/lib/splitwise.ts`, lines 383-407) together with the
database constraint it hits: the TypeScript body performs no validation
and inserts a row with status `pending`; the table declares
`CHECK (amount > 0)` (migration, line 132), so the insert errors
whenever the amount is not strictly positive.  The inserted row shape
is `newSettlementRow`; `createSettlement` is the guarded insert. -/
def newSettlementRow (newId fromEmail toEmail : String) (amount : ℚ)
    (sharedExpenseId : Option String) (description : Option String) : SettlementRow :=
  { id := newId
    from_user_email := fromEmail
    to_user_email := toEmail
    amount := amount
    shared_expense_id := sharedExpenseId
    description := description
    status := "pending"
    settled_at := none }

def createSettlement (tbl : List SettlementRow) (newId fromEmail toEmail : String)
    (amount : ℚ) (sharedExpenseId : Option String) (description : Option String) :
    Except String (List SettlementRow × SettlementRow) :=
  if 0 < amount then
    Except.ok (tbl ++ [newSettlementRow newId fromEmail toEmail amount sharedExpenseId description],
      newSettlementRow newId fromEmail toEmail amount sharedExpenseId description)
  else
    Except.error "violates check constraint settlements_amount_check"

/-- Embedding of `SplitwiseService.markSettlementComplete`
(`src/project/src/lib/splitwise.ts`, lines 423-433): update the row
whose id matches to status `completed` with `settled_at` set to the
current time; there is no guard on the current status of the row. -/
def markSettlementComplete (tbl : List SettlementRow) (settlementId : String)
    (now : String) : List SettlementRow :=
  tbl.map (fun s =>
    if s.id = settlementId then { s with status := "completed", settled_at := some now } else s)

/-- The notification loop of `SplitwiseService.createSharedExpense`
(`src/project/src/lib/splitwise.ts`, lines 177-196): for every
participant other than the current user, call the notifier inside a
try/catch whose catch only logs a warning.  The returned list is the
collected warnings (the `console.warn` calls); no notifier error
escapes the loop. -/
def notifyParticipants (notify : String → Except String Unit) (currentUserEmail : String)
    (ps : List Participant) : List String :=
  ps.foldl
    (fun warnings p =>
      if p.user_email ≠ currentUserEmail then
        match notify p.user_email with
        | Except.ok _ => warnings
        | Except.error e => warnings ++ [e]
      else warnings)
    []

/-- Outcome of `SplitwiseService.createSharedExpense`
(`src/project/src/lib/splitwise.ts`, lines 112-199) as seen by its
caller, with the two store inserts and the notifier as explicit
collaborators and `ps` the calculated participant list: an insert error
propagates; after both inserts succeed, the notification loop runs with
its errors absorbed, and the operation returns the created expense id. -/
def createSharedExpenseResult (insertExpense : Except String String)
    (insertParticipants : Except String Unit) (notify : String → Except String Unit)
    (currentUserEmail : String) (ps : List Participant) : Except String String :=
  match insertExpense with
  | Except.error e => Except.error e
  | Except.ok expenseId =>
    match insertParticipants with
    | Except.error e => Except.error e
    | Except.ok _ =>
      let _warnings := notifyParticipants notify currentUserEmail ps
      Except.ok expenseId

/-- Outcome of `handleSettleUp`
(`src/project/src/components/Splitwise/SettleUpModal.tsx`, lines
34-59) as reported to the user: `settleExpense` and
`sendSettlementNotification` are awaited inside one try block whose
catch reports the operation as failed, so the reported outcome is
success exactly when both calls succeed. -/
def handleSettleUp (settleResult : Except String Unit)
    (notifyResult : Except String Unit) : Except String Unit :=
  match settleResult with
  | Except.error e => Except.error e
  | Except.ok _ =>
    match notifyResult with
    | Except.error e => Except.error e
    | Except.ok _ => Except.ok ()

/-- The participant row of the C2 scenario: B owes 40 on an expense
created by A, unsettled and unpaid. -/
def participantB : Participant :=
  { id := "pB"
    shared_expense_id := "e1"
    user_email := "b@x.com"
    user_name := "B"
    amount_owed := 40
    amount_paid := 0
    percentage := none
    shares := none
    is_settled := false }

/-- A database holding a single shared expense created by A with the
single other participant B. -/
def dbScenario : DB :=
  { users := [{ email := "a@x.com", name := "A" }, { email := "b@x.com", name := "B" }]
    expenses := [{ id := "e1", created_by := "a@x.com", total_amount := 100 }]
    participants := [participantB] }

/-- The reduce of the `shares` case, with an arbitrary accumulator,
equals the accumulator plus the sum of the effective share counts. -/
theorem foldl_add_sharesOr1 (ps : List Participant) (a : ℚ) :
    ps.foldl (fun sum p => sum + sharesOr1 p.shares) a =
      a + (ps.map (fun p => sharesOr1 p.shares)).sum := by
  induction ps generalizing a with
  | nil => simp
  | cons p ps ih => simp [List.foldl_cons, ih, add_assoc]

/-- The total share count is the sum of effective share counts. -/
theorem totalSharesOf_eq_sum (ps : List Participant) :
    totalSharesOf ps = (ps.map (fun p => sharesOr1 p.shares)).sum := by
  simpa [totalSharesOf] using foldl_add_sharesOr1 ps 0

/-- Summing `amount_owed` after overwriting it with `f` sums `f`. -/
theorem sumOwed_map_set (ps : List Participant) (f : Participant → ℚ) :
    sumOwed (ps.map (fun p => { p with amount_owed := f p })) = (ps.map f).sum := by
  induction ps with
  | nil => simp [sumOwed]
  | cons p ps ih => simp [sumOwed, List.map_cons, List.sum_cons] at ih ⊢; rw [ih]

/-- The effective share count of a participant is never zero: an absent
or zero share count defaults to 1 and any other value is nonzero. -/
theorem sharesOr1_ne_zero (v : Option ℚ) : sharesOr1 v ≠ 0 := by
  cases v with
  | none => simp [sharesOr1]
  | some x =>
    by_cases hx : x = 0 <;> simp [sharesOr1, hx]

/-- Branch lemma: the `equal` case of the calculator. -/
theorem calc_equal (ps : List Participant) (total : ℚ) :
    calculateParticipantAmounts ps total "equal" =
      ps.map (fun p => { p with amount_owed := total / (ps.length : ℚ) }) := by
  simp +decide [calculateParticipantAmounts]

/-- Branch lemma: the `percentage` case of the calculator. -/
theorem calc_percentage (ps : List Participant) (total : ℚ) :
    calculateParticipantAmounts ps total "percentage" =
      ps.map (fun p => { p with amount_owed := total * pctOr0 p.percentage / 100 }) := by
  simp +decide [calculateParticipantAmounts]

/-- Branch lemma: the `shares` case of the calculator. -/
theorem calc_shares (ps : List Participant) (total : ℚ) :
    calculateParticipantAmounts ps total "shares" =
      ps.map (fun p =>
        { p with amount_owed := total * sharesOr1 p.shares / totalSharesOf ps }) := by
  simp +decide [calculateParticipantAmounts, totalSharesOf]

/-- Branch lemma: the `custom` case of the calculator. -/
theorem calc_custom (ps : List Participant) (total : ℚ) :
    calculateParticipantAmounts ps total "custom" =
      ps.map (fun p => { p with amount_owed := owedOr0 p.amount_owed }) := by
  simp +decide [calculateParticipantAmounts]

/-- Branch lemma: the `default` case of the calculator returns the
input unchanged. -/
theorem calc_default (ps : List Participant) (total : ℚ) (method : String)
    (h1 : method ≠ "equal") (h2 : method ≠ "percentage")
    (h3 : method ≠ "shares") (h4 : method ≠ "custom") :
    calculateParticipantAmounts ps total method = ps := by
  simp [calculateParticipantAmounts, h1, h2, h3, h4]

/-- Sums scale on the left by a constant factor and a constant divisor. -/
theorem sum_map_mul_div (ps : List Participant) (a c : ℚ) (f : Participant → ℚ) :
    (ps.map (fun p => a * f p / c)).sum = a * (ps.map f).sum / c := by
  induction ps with
  | nil => simp
  | cons p ps ih =>
    simp only [List.map_cons, List.sum_cons, ih]
    ring

/-- Agreement of two participant records on every field other than
`amount_owed`. -/
def agreesExceptOwed (p q : Participant) : Prop :=
  q.id = p.id ∧ q.shared_expense_id = p.shared_expense_id ∧ q.user_email = p.user_email ∧
  q.user_name = p.user_name ∧ q.amount_paid = p.amount_paid ∧ q.percentage = p.percentage ∧
  q.shares = p.shares ∧ q.is_settled = p.is_settled

/-- An update that only overwrites `amount_owed` preserves all other
fields pointwise. -/
theorem agreesExceptOwed_of_map (f : Participant → ℚ) (ps : List Participant)
    (i : ℕ) (p q : Participant) (hp : ps.get? i = some p)
    (hq : (ps.map (fun r => { r with amount_owed := f r })).get? i = some q) :
    agreesExceptOwed p q := by
  rw [List.get?_map, hp] at hq
  simp only [Option.map_some', Option.some_inj] at hq
  subst hq
  refine ⟨rfl, rfl, rfl, rfl, rfl, rfl, rfl, rfl⟩

/-- Sums scale on the left by a constant factor. -/
theorem sum_map_mul_left_q (ps : List Participant) (a : ℚ) (f : Participant → ℚ) :
    (ps.map (fun p => a * f p)).sum = a * (ps.map f).sum := by
  induction ps with
  | nil => simp
  | cons p ps ih =>
    simp only [List.map_cons, List.sum_cons, ih]
    ring

/-- Doubling the effective share count of a participant, written into
the `shares` field. -/
def doubleShares (p : Participant) : Participant :=
  { p with shares := some (2 * sharesOr1 p.shares) }

/-- A doubled effective share count is read back unchanged by the
JavaScript default (it is nonzero, hence truthy). -/
theorem sharesOr1_double (v : Option ℚ) :
    sharesOr1 (some (2 * sharesOr1 v)) = 2 * sharesOr1 v := by
  have h2 : (2 : ℚ) * sharesOr1 v ≠ 0 := mul_ne_zero two_ne_zero (sharesOr1_ne_zero v)
  show (if 2 * sharesOr1 v = 0 then 1 else 2 * sharesOr1 v) = 2 * sharesOr1 v
  rw [if_neg h2]

/-- Doubling every share count doubles the total share count. -/
theorem totalSharesOf_double (ps : List Participant) :
    totalSharesOf (ps.map doubleShares) = 2 * totalSharesOf ps := by
  rw [totalSharesOf_eq_sum, totalSharesOf_eq_sum, List.map_map]
  have hfun : ((fun p => sharesOr1 p.shares) ∘ doubleShares) =
      fun p => 2 * sharesOr1 p.shares := by
    funext p
    simp [doubleShares, Function.comp, sharesOr1_double]
  rw [hfun, sum_map_mul_left_q]

/-- First witness participant: owes 20 of 50, percentage 40, one share. -/
def pW1 : Participant :=
  { id := "w1"
    shared_expense_id := "e9"
    user_email := "a@x.com"
    user_name := "A"
    amount_owed := 20
    amount_paid := 0
    percentage := some 40
    shares := some 1
    is_settled := false }

/-- Second witness participant: owes 30 of 50, percentage 60, three
shares. -/
def pW2 : Participant :=
  { id := "w2"
    shared_expense_id := "e9"
    user_email := "b@x.com"
    user_name := "B"
    amount_owed := 30
    amount_paid := 0
    percentage := some 60
    shares := some 3
    is_settled := false }

/-- Witness participant list: accepted by the form validation for all
four split methods with total 50. -/
def psW : List Participant := [pW1, pW2]

/-- A validation accepted by the form implies at least two
participants: the first branch of `validateSplit` rejects fewer. -/
theorem validateSplit_length (method : String) (total : ℚ) (ps : List Participant)
    (h : validateSplit method total ps = true) : 2 ≤ ps.length := by
  by_contra hlt
  push_neg at hlt
  unfold validateSplit at h
  rw [if_pos hlt] at h
  exact Bool.false_ne_true h

/-- Sum of a constant map. -/
theorem sum_map_constant (ps : List Participant) (c : ℚ) :
    (ps.map (fun _ => c)).sum = (ps.length : ℚ) * c := by
  induction ps with
  | nil => simp
  | cons p ps ih =>
    simp only [List.map_cons, List.sum_cons, List.length_cons, ih]
    push_cast
    ring

/-- First participant of the C1 counterexample: 50 percent. -/
def pctHighA : Participant :=
  { id := "c1a"
    shared_expense_id := "eC"
    user_email := "a@x.com"
    user_name := "A"
    amount_owed := 0
    amount_paid := 0
    percentage := some 50
    shares := none
    is_settled := false }

/-- Second participant of the C1 counterexample: 50.01 percent, so the
percentages sum to 100.01, which the form accepts (the deviation is
exactly the 0.01 tolerance). -/
def pctHighB : Participant :=
  { id := "c1b"
    shared_expense_id := "eC"
    user_email := "b@x.com"
    user_name := "B"
    amount_owed := 0
    amount_paid := 0
    percentage := some (5001 / 100)
    shares := none
    is_settled := false }

/-- C1 counterexample: with total 10000 and percentages 50 and 50.01
the caller-side validation accepts the input, but the owed amounts sum
to 10001, which misses the total by 1, far outside the claimed absolute
tolerance of 0.01 — the 0.01 percentage-point tolerance scales with the
total amount. -/
theorem C1_counterexample :
    validateSplit "percentage" 10000 [pctHighA, pctHighB] = true ∧
    ¬ |sumOwed (calculateParticipantAmounts [pctHighA, pctHighB] 10000 "percentage") -
        10000| ≤ 1 / 100 := by
  have hs : sumPct [pctHighA, pctHighB] = 10001 / 100 := by
    norm_num [sumPct, pctOr0, pctHighA, pctHighB]
  constructor
  · unfold validateSplit
    rw [if_neg (by decide), if_pos rfl, hs, decide_eq_true_eq, abs_le]
    constructor <;> norm_num
  · have hsum : sumOwed (calculateParticipantAmounts [pctHighA, pctHighB] 10000 "percentage") =
        10001 := by
      rw [calc_percentage, sumOwed_map_set, sum_map_mul_div]
      have hs2 : (List.map (fun p => pctOr0 p.percentage) [pctHighA, pctHighB]).sum =
          10001 / 100 := hs
      rw [hs2]
      norm_num
    rw [hsum]
    norm_num

/-- C1 amended: for inputs accepted by the caller-side validation, the
owed amounts sum to the total exactly for `equal`, within 0.01 for
`custom`, exactly for `shares` provided the effective total share count
is nonzero, and exactly for `percentage` provided the percentages sum
to exactly 100 (for a percentage sum merely within the 0.01 validation
tolerance the deviation of the owed sum is `total * |sumPct - 100| /
100`, which exceeds 0.01 for large totals, as the counterexample
shows). -/
theorem C1_split_sum (total : ℚ) (ps : List Participant) :
    (validateSplit "equal" total ps = true →
      sumOwed (calculateParticipantAmounts ps total "equal") = total) ∧
    (validateSplit "custom" total ps = true →
      |sumOwed (calculateParticipantAmounts ps total "custom") - total| ≤ 1 / 100) ∧
    (validateSplit "shares" total ps = true → totalSharesOf ps ≠ 0 →
      sumOwed (calculateParticipantAmounts ps total "shares") = total) ∧
    (validateSplit "percentage" total ps = true → sumPct ps = 100 →
      sumOwed (calculateParticipantAmounts ps total "percentage") = total) := by
  refine ⟨?_, ?_, ?_, ?_⟩
  · intro h
    have hlen : 2 ≤ ps.length := validateSplit_length _ _ _ h
    have hN : ((ps.length : ℚ)) ≠ 0 := Nat.cast_ne_zero.mpr (by omega)
    rw [calc_equal, sumOwed_map_set, sum_map_constant, mul_comm]
    exact div_mul_cancel₀ total hN
  · intro h
    have hlen := validateSplit_length _ _ _ h
    unfold validateSplit at h
    rw [if_neg (Nat.not_lt.mpr hlen), if_neg (by decide), if_pos rfl] at h
    rw [calc_custom, sumOwed_map_set]
    exact of_decide_eq_true h
  · intro h hT
    rw [calc_shares, sumOwed_map_set, sum_map_mul_div, ← totalSharesOf_eq_sum]
    exact mul_div_cancel_right₀ total hT
  · intro h hp
    rw [calc_percentage, sumOwed_map_set, sum_map_mul_div]
    have : (ps.map (fun p => pctOr0 p.percentage)).sum = 100 := hp
    rw [this]
    norm_num

/-- C1 witness: all four branches of the amended split-sum statement
evaluated on the two-participant witness list with total 50. -/
theorem C1_split_sum_witness :
    validateSplit "equal" 50 psW = true ∧
    validateSplit "custom" 50 psW = true ∧
    validateSplit "shares" 50 psW = true ∧
    validateSplit "percentage" 50 psW = true ∧
    totalSharesOf psW ≠ 0 ∧
    sumPct psW = 100 ∧
    sumOwed (calculateParticipantAmounts psW 50 "equal") = 50 ∧
    |sumOwed (calculateParticipantAmounts psW 50 "custom") - 50| ≤ 1 / 100 ∧
    sumOwed (calculateParticipantAmounts psW 50 "shares") = 50 ∧
    sumOwed (calculateParticipantAmounts psW 50 "percentage") = 50 := by
  have hv1 : validateSplit "equal" 50 psW = true := by
    unfold validateSplit
    rw [if_neg (by decide), if_neg (by decide), if_neg (by decide)]
  have hv2 : validateSplit "custom" 50 psW = true := by
    unfold validateSplit
    rw [if_neg (by decide), if_neg (by decide), if_pos rfl, decide_eq_true_eq]
    norm_num [owedOr0, psW, pW1, pW2]
  have hv3 : validateSplit "shares" 50 psW = true := by
    unfold validateSplit
    rw [if_neg (by decide), if_neg (by decide), if_neg (by decide)]
  have hv4 : validateSplit "percentage" 50 psW = true := by
    unfold validateSplit
    rw [if_neg (by decide), if_pos rfl, decide_eq_true_eq]
    norm_num [sumPct, pctOr0, psW, pW1, pW2]
  have hT : totalSharesOf psW ≠ 0 := by
    rw [totalSharesOf_eq_sum]
    norm_num [psW, pW1, pW2, sharesOr1]
  have hP : sumPct psW = 100 := by
    norm_num [sumPct, pctOr0, psW, pW1, pW2]
  exact ⟨hv1, hv2, hv3, hv4, hT, hP,
    (C1_split_sum 50 psW).1 hv1,
    (C1_split_sum 50 psW).2.1 hv2,
    (C1_split_sum 50 psW).2.2.1 hv3 hT,
    (C1_split_sum 50 psW).2.2.2 hv4 hP⟩

/-- C8: for the `percentage` method, `calculateParticipantAmounts` is a
pure total projection (the Lean embedding is a total function because
the source has no throw on any path): every output `amount_owed` is
`totalAmount * percentage / 100` with an absent percentage defaulting
to 0, and consequently the owed amounts sum to
`totalAmount * (sum of percentages) / 100` — for percentages summing to
110 this is the proportionally scaled-up value `1.1 * totalAmount`, not
an error. -/
theorem C8_percentage_projection (total : ℚ) (ps : List Participant) :
    (calculateParticipantAmounts ps total "percentage").map (fun p => p.amount_owed) =
      ps.map (fun p => total * pctOr0 p.percentage / 100) ∧
    sumOwed (calculateParticipantAmounts ps total "percentage") = total * sumPct ps / 100 := by
  constructor
  · rw [calc_percentage, List.map_map]
    rfl
  · rw [calc_percentage, sumOwed_map_set, sum_map_mul_div]
    rfl

/-- C3 counterexample: with method `equal` and an empty participant
list, `calculateParticipantAmounts` does not fail: the source contains
no `InvalidSplitError` (or any throw); the JavaScript division by zero
is discarded by the map over the empty list and the function returns
the empty list as a normal result. -/
theorem C3_counterexample :
    calculateParticipantAmounts [] 100 "equal" = [] := by
  decide

/-- C3 amended: with method `equal` and an empty participant list the
calculator returns the empty list without error (there is no
`InvalidSplitError` in the code); for a non-empty list of N
participants every output `amount_owed` equals `totalAmount / N`
exactly. -/
theorem C3_equal_split (total : ℚ) (ps : List Participant) :
    calculateParticipantAmounts [] total "equal" = [] ∧
    ∀ i, i < ps.length →
      ((calculateParticipantAmounts ps total "equal").get? i).map (fun p => p.amount_owed) =
        some (total / (ps.length : ℚ)) := by
  constructor
  · rw [calc_equal]
    rfl
  · intro i hi
    rw [calc_equal, List.get?_map, List.get?_eq_get hi]
    rfl

/-- C3 witness: the amended equal-split statement evaluated on the
two-participant witness list with total 90. -/
theorem C3_equal_split_witness :
    0 < psW.length ∧
    ((calculateParticipantAmounts psW 90 "equal").get? 0).map (fun p => p.amount_owed) =
      some (90 / (psW.length : ℚ)) :=
  ⟨by decide, (C3_equal_split 90 psW).2 0 (by decide)⟩

/-- C7: for the `shares` method every participant with effective share
count k (absent share count defaulting to 1) out of the effective total
T receives `totalAmount * k / T`, and doubling every share count leaves
every owed amount unchanged. -/
theorem C7_shares_formula (total : ℚ) (ps : List Participant) :
    (∀ i, i < ps.length →
      ((calculateParticipantAmounts ps total "shares").get? i).map (fun p => p.amount_owed) =
        (ps.get? i).map (fun p => total * sharesOr1 p.shares / totalSharesOf ps)) ∧
    (calculateParticipantAmounts (ps.map doubleShares) total "shares").map
        (fun p => p.amount_owed) =
      (calculateParticipantAmounts ps total "shares").map (fun p => p.amount_owed) := by
  constructor
  · intro i hi
    rw [calc_shares, List.get?_map]
    cases ps.get? i <;> rfl
  · rw [calc_shares, calc_shares, List.map_map, List.map_map, List.map_map]
    refine List.map_congr_left ?_
    intro p _
    show total * sharesOr1 (doubleShares p).shares / totalSharesOf (ps.map doubleShares) =
      total * sharesOr1 p.shares / totalSharesOf ps
    rw [totalSharesOf_double]
    have hd : sharesOr1 (doubleShares p).shares = 2 * sharesOr1 p.shares :=
      sharesOr1_double p.shares
    rw [hd, show total * (2 * sharesOr1 p.shares) = 2 * (total * sharesOr1 p.shares) by ring]
    exact mul_div_mul_left _ _ two_ne_zero

/-- C7 witness: the shares formula evaluated at index 0 of the witness
list with total 50 (one share of four gives 12.5). -/
theorem C7_shares_formula_witness :
    0 < psW.length ∧
    ((calculateParticipantAmounts psW 50 "shares").get? 0).map (fun p => p.amount_owed) =
      (psW.get? 0).map (fun p => 50 * sharesOr1 p.shares / totalSharesOf psW) :=
  ⟨by decide, (C7_shares_formula 50 psW).1 0 (by decide)⟩

/-- C9: `calculateParticipantAmounts` preserves the length and order of
its input, every field of each participant other than `amount_owed` is
carried over unchanged to the output element at the same position, and
for a split method outside the four known literals the input list is
returned entirely unchanged. -/
theorem C9_frame (method : String) (total : ℚ) (ps : List Participant) :
    (calculateParticipantAmounts ps total method).length = ps.length ∧
    (∀ i p q, ps.get? i = some p →
      (calculateParticipantAmounts ps total method).get? i = some q →
      agreesExceptOwed p q) ∧
    (method ≠ "equal" → method ≠ "percentage" → method ≠ "shares" → method ≠ "custom" →
      calculateParticipantAmounts ps total method = ps) := by
  by_cases h1 : method = "equal"
  · subst h1
    rw [calc_equal]
    refine ⟨by simp, ?_, fun hne _ _ _ => absurd rfl hne⟩
    intro i p q hp hq
    exact agreesExceptOwed_of_map _ ps i p q hp hq
  by_cases h2 : method = "percentage"
  · subst h2
    rw [calc_percentage]
    refine ⟨by simp, ?_, fun _ hne _ _ => absurd rfl hne⟩
    intro i p q hp hq
    exact agreesExceptOwed_of_map _ ps i p q hp hq
  by_cases h3 : method = "shares"
  · subst h3
    rw [calc_shares]
    refine ⟨by simp, ?_, fun _ _ hne _ => absurd rfl hne⟩
    intro i p q hp hq
    exact agreesExceptOwed_of_map _ ps i p q hp hq
  by_cases h4 : method = "custom"
  · subst h4
    rw [calc_custom]
    refine ⟨by simp, ?_, fun _ _ _ hne => absurd rfl hne⟩
    intro i p q hp hq
    exact agreesExceptOwed_of_map _ ps i p q hp hq
  · rw [calc_default ps total method h1 h2 h3 h4]
    refine ⟨rfl, ?_, fun _ _ _ _ => rfl⟩
    intro i p q hp hq
    rw [hp] at hq
    injection hq with h
    subst h
    exact ⟨rfl, rfl, rfl, rfl, rfl, rfl, rfl, rfl⟩

/-- C9 witness: the frame statement evaluated at the unknown method
string `banana` on the witness list. -/
theorem C9_frame_witness :
    psW.get? 0 = some pW1 ∧
    (calculateParticipantAmounts psW 50 "banana").get? 0 = some pW1 ∧
    agreesExceptOwed pW1 pW1 ∧
    calculateParticipantAmounts psW 50 "banana" = psW := by
  have h := C9_frame "banana" 50 psW
  have hdef : calculateParticipantAmounts psW 50 "banana" = psW :=
    h.2.2 (by decide) (by decide) (by decide) (by decide)
  have hget : (calculateParticipantAmounts psW 50 "banana").get? 0 = some pW1 := by
    rw [hdef]
    rfl
  exact ⟨rfl, hget, h.2.1 0 pW1 pW1 rfl hget, hdef⟩

/-- C2: evaluation of the embedded `calculate_user_balance` at the
claimed scenario (a single expense created by A, one other unsettled
participant B with `amount_owed` 40 and `amount_paid` 0).  The code
reports B at -40 from the perspective of A and A at +40 from the
perspective of B — exactly the opposite signs of the claim and of the
sign convention documented in the code itself (`UserBalance` in
`src/project/src/lib/splitwise.ts`, line 56: positive means the
counterparty owes the current user). -/
theorem C2_balance_signs :
    calculate_user_balance dbScenario "a@x.com" =
      [{ friend_email := "b@x.com", friend_name := some "B", balance := -40 }] ∧
    calculate_user_balance dbScenario "b@x.com" =
      [{ friend_email := "a@x.com", friend_name := some "A", balance := 40 }] := by
  constructor <;>
    simp +decide [calculate_user_balance, userOwesRows, userIsOwedRows, userOwesSource,
      userIsOwedSource, expenseCreatedBy, creatorOf, lookupName, firstDedup, firstDedupAux,
      dbScenario, participantB]

/-- C10: `settleExpense` unconditionally overwrites the matching row,
setting `amount_paid` to exactly the given amount and `is_settled` to
true, for any amount value, without any check against `amount_owed`;
and a settled participant is excluded from the balance computation, so
settling B for any amount (partial or excess) empties the balance
report of A in the scenario database. -/
theorem C10_settleExpense_unconditional (tbl : List Participant) (pid : String) (amount : ℚ) :
    (∀ i p, tbl.get? i = some p →
      (settleExpense tbl pid amount).get? i =
        some (if p.id = pid then { p with amount_paid := amount, is_settled := true } else p)) ∧
    (∀ amt : ℚ,
      calculate_user_balance
        { dbScenario with participants := settleExpense dbScenario.participants "pB" amt }
        "a@x.com" = []) := by
  constructor
  · intro i p hp
    simp only [settleExpense]
    rw [List.get?_map, hp]
    rfl
  · intro amt
    simp +decide [calculate_user_balance, userOwesRows, userIsOwedRows, userOwesSource,
      userIsOwedSource, expenseCreatedBy, creatorOf, lookupName, firstDedup, firstDedupAux,
      settleExpense, dbScenario, participantB]

/-- C10 witness: settling the scenario participant for 10 (a partial
payment of the 40 owed) marks the row settled with `amount_paid` 10 and
removes it from the balance report of A. -/
theorem C10_settleExpense_unconditional_witness :
    [participantB].get? 0 = some participantB ∧
    (settleExpense [participantB] "pB" 10).get? 0 =
      some (if participantB.id = "pB" then
        { participantB with amount_paid := 10, is_settled := true } else participantB) ∧
    calculate_user_balance
      { dbScenario with participants := settleExpense dbScenario.participants "pB" 10 }
      "a@x.com" = [] :=
  ⟨rfl, (C10_settleExpense_unconditional [participantB] "pB" 10).1 0 participantB rfl,
    (C10_settleExpense_unconditional [participantB] "pB" 10).2 10⟩

/-- A settlement row already in the terminal state `cancelled`. -/
def cancelledSettlement : SettlementRow :=
  { id := "s1"
    from_user_email := "a@x.com"
    to_user_email := "b@x.com"
    amount := 25
    shared_expense_id := none
    description := none
    status := "cancelled"
    settled_at := none }

/-- A settlement row already in the terminal state `completed`. -/
def completedSettlement : SettlementRow :=
  { id := "s2"
    from_user_email := "a@x.com"
    to_user_email := "b@x.com"
    amount := 30
    shared_expense_id := none
    description := none
    status := "completed"
    settled_at := some "t0" }

/-- C4 counterexample: `markSettlementComplete` carries no guard on the
current status, so invoking it on a settlement in the terminal state
`cancelled` moves it to `completed` — a transition out of a terminal
state, contradicting the claim. -/
theorem C4_counterexample :
    cancelledSettlement.status = "cancelled" ∧
    markSettlementComplete [cancelledSettlement] "s1" "t1" =
      [{ cancelledSettlement with status := "completed", settled_at := some "t1" }] := by
  constructor
  · rfl
  · simp +decide [markSettlementComplete, cancelledSettlement]

/-- C4 amended: `markSettlementComplete` unconditionally sets the
matching row to `completed`, so a `cancelled` record can still become
`completed` (see the counterexample); what does hold is that a
`completed` record never leaves `completed` under either ledger
operation (re-marking only refreshes `settled_at`), no operation ever
moves an existing record to `pending` (the status `pending` is only the
initial status of a newly inserted settlement), and `createSettlement`
leaves every existing row untouched. -/
theorem C4_terminal_stability (tbl : List SettlementRow) (sid now : String) (i : ℕ) :
    (∀ s, tbl.get? i = some s → s.status = "completed" →
      ((markSettlementComplete tbl sid now).get? i).map SettlementRow.status =
        some "completed") ∧
    (∀ s, tbl.get? i = some s → s.status ≠ "pending" →
      ((markSettlementComplete tbl sid now).get? i).map SettlementRow.status ≠
        some "pending") ∧
    (∀ nid f t a se d out, createSettlement tbl nid f t a se d = Except.ok out →
      ∀ j, j < tbl.length → out.1.get? j = tbl.get? j) := by
  refine ⟨?_, ?_, ?_⟩
  · intro s hs hc
    simp only [markSettlementComplete]
    rw [List.get?_map, hs]
    by_cases hid : s.id = sid
    · simp [hid]
    · simp [hid, hc]
  · intro s hs hp
    simp only [markSettlementComplete]
    rw [List.get?_map, hs]
    by_cases hid : s.id = sid
    · simp [hid]
    · simp [hid]
      exact hp
  · intro nid f t a se d out hok j hj
    unfold createSettlement at hok
    by_cases ha : 0 < a
    · rw [if_pos ha] at hok
      injection hok with h
      subst h
      exact List.get?_append hj
    · rw [if_neg ha] at hok
      exact absurd hok (by simp)

/-- C4 witness: stability of the `completed` record and innocuousness
of a new settlement insert, evaluated on a one-row ledger. -/
theorem C4_terminal_stability_witness :
    [completedSettlement].get? 0 = some completedSettlement ∧
    completedSettlement.status = "completed" ∧
    ((markSettlementComplete [completedSettlement] "s2" "t3").get? 0).map
      SettlementRow.status = some "completed" ∧
    completedSettlement.status ≠ "pending" ∧
    ((markSettlementComplete [completedSettlement] "s2" "t3").get? 0).map
      SettlementRow.status ≠ some "pending" ∧
    (createSettlement [completedSettlement] "s9" "a@x.com" "b@x.com" 5 none none =
      Except.ok ([completedSettlement, newSettlementRow "s9" "a@x.com" "b@x.com" 5 none none],
        newSettlementRow "s9" "a@x.com" "b@x.com" 5 none none)) ∧
    ([completedSettlement, newSettlementRow "s9" "a@x.com" "b@x.com" 5 none none].get? 0 =
      [completedSettlement].get? 0) := by
  have h := C4_terminal_stability [completedSettlement] "s2" "t3" 0
  have hok : createSettlement [completedSettlement] "s9" "a@x.com" "b@x.com" 5 none none =
      Except.ok ([completedSettlement, newSettlementRow "s9" "a@x.com" "b@x.com" 5 none none],
        newSettlementRow "s9" "a@x.com" "b@x.com" 5 none none) := by
    unfold createSettlement
    rw [if_pos (by norm_num)]
    rfl
  refine ⟨rfl, rfl, h.1 completedSettlement rfl rfl, by decide,
    h.2.1 completedSettlement rfl (by decide), hok, ?_⟩
  exact h.2.2 "s9" "a@x.com" "b@x.com" 5 none none _ hok 0 (by decide)

/-- C5 counterexample: in the settle-up flow the notification call is
awaited inside the same try block as the state mutation, so when the
mutation succeeds and the notification throws, the operation is
reported as failed — the claim fails for the settle-up flow. -/
theorem C5_counterexample :
    handleSettleUp (Except.ok ()) (Except.error "notification failed") =
      Except.error "notification failed" := rfl

/-- C5 amended: in `createSharedExpense` a notification failure is
indeed absorbed — once both store inserts succeed the operation reports
success for every notifier outcome; but in the settle-up flow of
`SettleUpModal` the reported outcome is success exactly when both the
mutation and the notification succeed, so there a notification failure
does surface as operation failure (the already-performed state change
is not rolled back). -/
theorem C5_notification_isolation (expenseId currentUserEmail : String)
    (notify : String → Except String Unit) (ps : List Participant)
    (settleRes notifyRes : Except String Unit) :
    createSharedExpenseResult (Except.ok expenseId) (Except.ok ()) notify currentUserEmail ps =
      Except.ok expenseId ∧
    (handleSettleUp settleRes notifyRes = Except.ok () ↔
      settleRes = Except.ok () ∧ notifyRes = Except.ok ()) := by
  constructor
  · rfl
  · cases settleRes with
    | error e => simp [handleSettleUp]
    | ok a =>
      cases a
      cases notifyRes with
      | error e => simp [handleSettleUp]
      | ok b =>
        cases b
        simp [handleSettleUp]

/-- C5 witness: the amended statement evaluated with a notifier that
always fails: expense creation still reports success. -/
theorem C5_notification_isolation_witness :
    createSharedExpenseResult (Except.ok "e1") (Except.ok ())
      (fun _ => Except.error "smtp down") "a@x.com" psW = Except.ok "e1" ∧
    (handleSettleUp (Except.ok ()) (Except.ok ()) = Except.ok () ↔
      (Except.ok () : Except String Unit) = Except.ok () ∧
      (Except.ok () : Except String Unit) = Except.ok ()) :=
  C5_notification_isolation "e1" "a@x.com" (fun _ => Except.error "smtp down") psW
    (Except.ok ()) (Except.ok ())

/-- C6: the settlement-creation operation fails whenever the amount is
not strictly positive (the TypeScript body performs no validation, but
the insert hits the database constraint `CHECK (amount > 0)`); exactly
when the amount is strictly positive, one settlement record is created,
appended to the table, and its initial status is `pending`. -/
theorem C6_createSettlement_positive (tbl : List SettlementRow) (nid f t : String)
    (amount : ℚ) (se d : Option String) :
    (amount ≤ 0 → createSettlement tbl nid f t amount se d =
      Except.error "violates check constraint settlements_amount_check") ∧
    (0 < amount →
      createSettlement tbl nid f t amount se d =
        Except.ok (tbl ++ [newSettlementRow nid f t amount se d],
          newSettlementRow nid f t amount se d) ∧
      (newSettlementRow nid f t amount se d).status = "pending") := by
  constructor
  · intro h
    unfold createSettlement
    rw [if_neg (not_lt.mpr h)]
  · intro h
    refine ⟨?_, rfl⟩
    unfold createSettlement
    rw [if_pos h]

/-- C6 witness: creating a settlement with amount -5 fails on the check
constraint, with amount 7 it succeeds with a pending record. -/
theorem C6_createSettlement_positive_witness :
    ((-5 : ℚ) ≤ 0) ∧
    createSettlement [] "s1" "a@x.com" "b@x.com" (-5) none none =
      Except.error "violates check constraint settlements_amount_check" ∧
    (0 < (7 : ℚ)) ∧
    (createSettlement [] "s1" "a@x.com" "b@x.com" 7 none none =
      Except.ok ([newSettlementRow "s1" "a@x.com" "b@x.com" 7 none none],
        newSettlementRow "s1" "a@x.com" "b@x.com" 7 none none) ∧
      (newSettlementRow "s1" "a@x.com" "b@x.com" 7 none none).status = "pending") :=
  ⟨by norm_num,
    (C6_createSettlement_positive [] "s1" "a@x.com" "b@x.com" (-5) none none).1 (by norm_num),
    by norm_num,
    (C6_createSettlement_positive [] "s1" "a@x.com" "b@x.com" 7 none none).2 (by norm_num)⟩
